import Mathlib

/-!
Verification development for the SSH tunnel forwarding subsystem of the
dbleaf repository (src/src-tauri/src/ssh_tunnel.rs and
src/src-tauri/src/db/connection.rs).

The Rust code is shallowly embedded: every fallible external operation
(TCP connect, SSH handshake, authentication, listener bind, channel reads
and writes, thread join) is driven by an explicit environment value that
records the outcome the outside world would have produced, and each
function additionally returns the ordered list of observable effects it
performed.  Pure control flow and data flow are translated directly from
the source.
-/

/-- Mirror of ConnectionConfig in src/src-tauri/src/db/models.rs, restricted
to the fields that the tunnel subsystem and the connection manager read. -/
structure ConnectionConfig where
  id : String
  host : String
  port : Nat
  use_ssh_tunnel : Bool
  ssh_host : String
  ssh_port : Nat
  ssh_username : String
  ssh_auth_method : String
  ssh_password : String
  ssh_key_path : String
  ssh_passphrase : String
deriving Repr, DecidableEq

/-- Outcomes of the external operations performed by SshTunnel::establish.
Each Boolean says whether the corresponding library call succeeds; the
parse outcome mirrors str::parse::<SocketAddr> on the formatted
"ssh_host:ssh_port" string, which only accepts literal IP socket addresses
and never performs DNS resolution. -/
structure EstablishEnv where
  parseOk : Bool
  connectOk : Bool
  sessionNewOk : Bool
  handshakeOk : Bool
  authOk : Bool
  authenticated : Bool
  bindOk : Bool
  localAddrOk : Bool
  localPort : Nat
  setNonblockingOk : Bool
deriving Repr, DecidableEq

/-- Observable side effects of establish, in program order.  connect,
handshake and authAttempt are network I/O on the transport; bind,
setNonblocking and spawnWorker are the local listener and worker setup. -/
inductive Effect where
  | connect
  | handshake
  | authAttempt (method : String)
  | bind
  | setNonblocking
  | spawnWorker
deriving Repr, DecidableEq

/-- Error cases of establish; each constructor corresponds to one distinct
error message produced in ssh_tunnel.rs (address parse, transport connect,
session creation, handshake, the three authentication failures, the
unknown-method arm, the authenticated() check, listener bind, local_addr
and set_nonblocking). -/
inductive EstablishError where
  | addrParse
  | transportConnect
  | sessionCreate
  | handshakeFailed
  | authPassword
  | authKey
  | authKeyPassphrase
  | unknownAuthMethod (method : String)
  | notAuthenticated
  | listenerBind
  | localAddr
  | setNonblocking
deriving Repr, DecidableEq

/-- Mirror of the SshTunnel struct: the value handed back to the caller.
The shutdown sender and the join handle are runtime handles; only the
local port carries data visible to this model. -/
structure SshTunnel where
  local_port : Nat
deriving Repr, DecidableEq

/-- Steps 4 and 5 of SshTunnel::establish (lines 73-100): bind the local
listener on 127.0.0.1:0, read the assigned port, switch the listener to
non-blocking mode, then spawn the forwarding worker and return the tunnel. -/
def establishTail (env : EstablishEnv) (trace : List Effect) :
    Except EstablishError SshTunnel × List Effect :=
  if !env.authenticated then (.error .notAuthenticated, trace)
  else if !env.bindOk then (.error .listenerBind, trace ++ [.bind])
  else if !env.localAddrOk then (.error .localAddr, trace ++ [.bind])
  else if !env.setNonblockingOk then
    (.error .setNonblocking, trace ++ [.bind, .setNonblocking])
  else
    (.ok { local_port := env.localPort },
      trace ++ [.bind, .setNonblocking, .spawnWorker])

/-- Embedding of SshTunnel::establish (ssh_tunnel.rs lines 17-101): parse
the jump-host address, connect the transport with a timeout, create the
session, handshake, authenticate according to the ssh_auth_method string,
check authenticated(), then bind and serve the local listener.  Returns
the result together with the ordered effect trace. -/
def establish (config : ConnectionConfig) (env : EstablishEnv) :
    Except EstablishError SshTunnel × List Effect :=
  if !env.parseOk then (.error .addrParse, [])
  else if !env.connectOk then (.error .transportConnect, [.connect])
  else if !env.sessionNewOk then (.error .sessionCreate, [.connect])
  else if !env.handshakeOk then (.error .handshakeFailed, [.connect, .handshake])
  else
    match config.ssh_auth_method with
    | "password" =>
        if !env.authOk then
          (.error .authPassword, [.connect, .handshake, .authAttempt "password"])
        else
          establishTail env [.connect, .handshake, .authAttempt "password"]
    | "key" =>
        if !env.authOk then
          (.error .authKey, [.connect, .handshake, .authAttempt "key"])
        else
          establishTail env [.connect, .handshake, .authAttempt "key"]
    | "key_passphrase" =>
        if !env.authOk then
          (.error .authKeyPassphrase,
            [.connect, .handshake, .authAttempt "key_passphrase"])
        else
          establishTail env [.connect, .handshake, .authAttempt "key_passphrase"]
    | other => (.error (.unknownAuthMethod other), [.connect, .handshake])

/-- Outcome of one non-blocking read call, mirroring std::io::Read::read on
the local socket and ssh2::Channel::read: Ok(0) is end of stream, Ok(n)
returns the bytes read (at most the 8192-byte buffer), WouldBlock means no
data yet, and any other error is a hard error. -/
inductive ReadOutcome where
  | eof
  | data (bs : List Nat)
  | wouldBlock
  | err
deriving Repr, DecidableEq

/-- Environment of one iteration of the bidirectional_copy loop: what the
local-socket read returns, whether channel.write_all succeeds, what the
channel read returns, whether the local write_all succeeds, and whether
channel.eof() reports end-of-file at the bottom of the pass. -/
structure CopyIter where
  localRead : ReadOutcome
  chanWriteOk : Bool
  chanRead : ReadOutcome
  localWriteOk : Bool
  chanEofFlag : Bool
deriving Repr, DecidableEq

/-- Break causes of the bidirectional_copy loop, one per break statement in
ssh_tunnel.rs lines 163-205. -/
inductive ExitKind where
  | localEof
  | chanWriteErr
  | localReadErr
  | chanClosed
  | localWriteErr
  | chanReadErr
  | chanEofFlag
deriving Repr, DecidableEq

/-- Observable operations performed by bidirectional_copy, in order. -/
inductive CopyEvent where
  | setBlocking (b : Bool)
  | writeChannel (bs : List Nat)
  | flushChannel
  | writeLocal (bs : List Nat)
  | flushLocal
  | sleep
  | sendEof
  | waitClose
deriving Repr, DecidableEq

/-- Result of running the copy loop on a finite script of iteration
environments: the chunks delivered to the channel and to the local socket,
the break cause (none when the script ran out before any break), and the
event trace. -/
structure CopyResult where
  chanWrites : List (List Nat)
  localWrites : List (List Nat)
  exit : Option ExitKind
  events : List CopyEvent
deriving Repr, DecidableEq

/-- Embedding of the loop body of SshTunnel::bidirectional_copy
(ssh_tunnel.rs lines 163-205), driven by a finite script.  Each iteration
polls the local socket, forwards any data to the channel under blocking
mode, polls the channel, forwards any data to the local socket, checks
channel.eof(), and sleeps when neither direction produced data.  A failed
write_all delivers an unknown prefix, so a chunk is recorded as delivered
only when its write_all succeeded. -/
def copyLoop : List CopyIter → CopyResult
  | [] => { chanWrites := [], localWrites := [], exit := none, events := [] }
  | it :: rest =>
    match it.localRead with
    | .eof => { chanWrites := [], localWrites := [], exit := some .localEof, events := [] }
    | .err => { chanWrites := [], localWrites := [], exit := some .localReadErr, events := [] }
    | .data bs =>
      if it.chanWriteOk then
        let evs0 : List CopyEvent :=
          [.setBlocking true, .writeChannel bs, .flushChannel, .setBlocking false]
        match it.chanRead with
        | .eof => { chanWrites := [bs], localWrites := [], exit := some .chanClosed, events := evs0 }
        | .err => { chanWrites := [bs], localWrites := [], exit := some .chanReadErr, events := evs0 }
        | .data cs =>
          if it.localWriteOk then
            if it.chanEofFlag then
              { chanWrites := [bs], localWrites := [cs], exit := some .chanEofFlag,
                events := evs0 ++ [.writeLocal cs, .flushLocal] }
            else
              let r := copyLoop rest
              { chanWrites := bs :: r.chanWrites, localWrites := cs :: r.localWrites,
                exit := r.exit, events := evs0 ++ [.writeLocal cs, .flushLocal] ++ r.events }
          else
            { chanWrites := [bs], localWrites := [], exit := some .localWriteErr,
              events := evs0 ++ [.writeLocal cs] }
        | .wouldBlock =>
          if it.chanEofFlag then
            { chanWrites := [bs], localWrites := [], exit := some .chanEofFlag, events := evs0 }
          else
            let r := copyLoop rest
            { chanWrites := bs :: r.chanWrites, localWrites := r.localWrites,
              exit := r.exit, events := evs0 ++ r.events }
      else
        { chanWrites := [], localWrites := [], exit := some .chanWriteErr,
          events := [.setBlocking true, .writeChannel bs] }
    | .wouldBlock =>
      match it.chanRead with
      | .eof => { chanWrites := [], localWrites := [], exit := some .chanClosed, events := [] }
      | .err => { chanWrites := [], localWrites := [], exit := some .chanReadErr, events := [] }
      | .data cs =>
        if it.localWriteOk then
          if it.chanEofFlag then
            { chanWrites := [], localWrites := [cs], exit := some .chanEofFlag,
              events := [.writeLocal cs, .flushLocal] }
          else
            let r := copyLoop rest
            { chanWrites := r.chanWrites, localWrites := cs :: r.localWrites,
              exit := r.exit, events := [CopyEvent.writeLocal cs, .flushLocal] ++ r.events }
        else
          { chanWrites := [], localWrites := [], exit := some .localWriteErr,
            events := [.writeLocal cs] }
      | .wouldBlock =>
        if it.chanEofFlag then
          { chanWrites := [], localWrites := [], exit := some .chanEofFlag, events := [] }
        else
          let r := copyLoop rest
          { chanWrites := r.chanWrites, localWrites := r.localWrites,
            exit := r.exit, events := CopyEvent.sleep :: r.events }

/-- Embedding of SshTunnel::bidirectional_copy (ssh_tunnel.rs lines
148-211): the prologue sets the session non-blocking, the loop runs, and
when the loop breaks the cleanup sets the session blocking, sends EOF on
the channel and waits for its close.  When the finite script runs out
before a break the cleanup has not yet been observed. -/
def bidirectional_copy (script : List CopyIter) : CopyResult :=
  let r := copyLoop script
  { r with
    events :=
      CopyEvent.setBlocking false :: r.events ++
        (if r.exit.isSome then [CopyEvent.setBlocking true, .sendEof, .waitClose] else []) }

/-- Outcome of one listener.accept() poll in the accept loop: a connection
(with the script its forwarding episode will see), WouldBlock, or a hard
listener error. -/
inductive AcceptOutcome where
  | conn (script : List CopyIter)
  | wouldBlock
  | hardErr
deriving Repr, DecidableEq

/-- Environment of one iteration of the forward_loop: whether the one-shot
shutdown signal has been sent by the time try_recv runs, the accept
outcome, and whether channel_direct_tcpip succeeds when a connection was
accepted. -/
structure IterInput where
  signalPresent : Bool
  accept : AcceptOutcome
  chanOpenOk : Bool
deriving Repr, DecidableEq

/-- States of the accept loop: listening (the loop continues) or closed
(the loop has exited and the worker terminates). -/
inductive Phase where
  | listening
  | closed
deriving Repr, DecidableEq

/-- Observable operations of the forward_loop worker.  acceptAttempt
records the session blocking mode in force when listener.accept() runs;
copy wraps the events of an inner bidirectional_copy episode. -/
inductive WEvent where
  | checkSignal
  | acceptAttempt (sessionBlocking : Bool)
  | setBlocking (b : Bool)
  | openChannel (ok : Bool)
  | copy (e : CopyEvent)
  | sleep
deriving Repr, DecidableEq

/-- One iteration of the loop in SshTunnel::forward_loop (ssh_tunnel.rs
lines 113-145): poll the shutdown signal and break if present, then
attempt an accept; on a connection set the session blocking, open the
direct channel, run the bidirectional copy when it opened, and restore
non-blocking mode; on WouldBlock sleep 50ms; on a hard accept error break.
The Bool argument is the session blocking mode at the top of the
iteration; the Bool in the result is the mode when the iteration ends. -/
def forwardStep (blocking : Bool) (inp : IterInput) : Phase × Bool × List WEvent :=
  if inp.signalPresent then (.closed, blocking, [.checkSignal])
  else
    match inp.accept with
    | .conn script =>
        if inp.chanOpenOk then
          (.listening, false,
            [WEvent.checkSignal, .acceptAttempt blocking, .setBlocking true,
              .openChannel true] ++
              (bidirectional_copy script).events.map WEvent.copy ++
              [WEvent.setBlocking false])
        else
          (.listening, false,
            [.checkSignal, .acceptAttempt blocking, .setBlocking true,
              .openChannel false, .setBlocking false])
    | .wouldBlock => (.listening, blocking, [.checkSignal, .acceptAttempt blocking, .sleep])
    | .hardErr => (.closed, blocking, [.checkSignal, .acceptAttempt blocking])

/-- Iterated accept loop over a finite script of iteration environments,
threading the session blocking mode and stopping when a step closes the
loop. -/
def forwardRun : Bool → List IterInput → Phase × Bool × List WEvent
  | blocking, [] => (.listening, blocking, [])
  | blocking, inp :: rest =>
    match forwardStep blocking inp with
    | (Phase.closed, b2, evs) => (.closed, b2, evs)
    | (Phase.listening, b2, evs) =>
      let r := forwardRun b2 rest
      (r.1, r.2.1, evs ++ r.2.2)

/-- Embedding of SshTunnel::forward_loop (ssh_tunnel.rs lines 103-146):
the session is set non-blocking before the loop, then the loop runs. -/
def forward_loop (inputs : List IterInput) : Phase × Bool × List WEvent :=
  let r := forwardRun false inputs
  (r.1, r.2.1, WEvent.setBlocking false :: r.2.2)

/-- Observable operations of SshTunnel::shutdown.  reportJoinError is a
possible behavior the event vocabulary can express; the embedding of
shutdown never emits it because the source discards the join result. -/
inductive ShutdownEvent where
  | sendSignal
  | joinWorker (joinOk : Bool)
  | reportJoinError
deriving Repr, DecidableEq

/-- Embedding of SshTunnel::shutdown (ssh_tunnel.rs lines 213-219): send
the shutdown signal (result discarded), take the join handle and join the
worker, discarding the join result.  The function takes the tunnel by
value (pub fn shutdown(mut self) in the source consumes it) and always
returns unit: the caller considers the tunnel terminated regardless of
the join outcome. -/
def SshTunnel.shutdown (_t : SshTunnel) (joinOk : Bool) : Unit × List ShutdownEvent :=
  ((), [.sendSignal, .joinWorker joinOk])

/-- Lookup in an association list with string keys, mirroring
HashMap::get. -/
def lookupAL {α : Type} (l : List (String × α)) (k : String) : Option α :=
  (l.find? (fun p => p.1 == k)).map (fun p => p.2)

/-- Removal from an association list, mirroring HashMap::remove on a map
with unique keys. -/
def removeAL {α : Type} (l : List (String × α)) (k : String) : List (String × α) :=
  l.filter (fun p => !(p.1 == k))

/-- Insertion into an association list, mirroring HashMap::insert
(replacing any previous binding of the key). -/
def insertAL {α : Type} (l : List (String × α)) (k : String) (v : α) :
    List (String × α) :=
  (k, v) :: removeAL l k

/-- Mirror of ConnectionManager in src/src-tauri/src/db/connection.rs: the
map of live database clients (opaque here) and the map of SSH tunnels
keyed by connection id. -/
structure ConnectionManager where
  connections : List (String × Unit)
  ssh_tunnels : List (String × SshTunnel)
deriving Repr, DecidableEq

/-- Mirror of ConnectionManager::new. -/
def ConnectionManager.new : ConnectionManager :=
  { connections := [], ssh_tunnels := [] }

/-- Mirror of ConnectionManager::get_tunnel_port (connection.rs lines
164-166). -/
def ConnectionManager.get_tunnel_port (m : ConnectionManager) (connection_id : String) :
    Option Nat :=
  (lookupAL m.ssh_tunnels connection_id).map (fun t => t.local_port)

/-- Observable registry-level operations of the connection manager. -/
inductive RegistryEvent where
  | tunnelShutdown (local_port : Nat)
deriving Repr, DecidableEq

/-- Embedding of ConnectionManager::disconnect (connection.rs lines
148-155): remove the client, and when a tunnel is registered for the id,
remove it and shut it down; always returns Ok(()). -/
def ConnectionManager.disconnect (m : ConnectionManager) (connection_id : String) :
    Except String Unit × ConnectionManager × List RegistryEvent :=
  let m1 := { m with connections := removeAL m.connections connection_id }
  match lookupAL m1.ssh_tunnels connection_id with
  | some t =>
      (.ok (), { m1 with ssh_tunnels := removeAL m1.ssh_tunnels connection_id },
        [.tunnelShutdown t.local_port])
  | none => (.ok (), m1, [])

/-- Environment for ConnectionManager::connect: the establish environment
for the tunnel (used only when the config requests a tunnel) and whether
the downstream tokio_postgres connection succeeds. -/
structure ConnectEnv where
  establishEnv : EstablishEnv
  pgOk : Bool
deriving Repr, DecidableEq

/-- Embedding of ConnectionManager::connect (connection.rs lines 114-146):
when the config requests an SSH tunnel, establish one and register it
under the config id before building the connection string; then attempt
the database connection, and on failure remove the freshly registered
tunnel from the registry and shut it down before propagating the error. -/
def ConnectionManager.connect (m : ConnectionManager) (config : ConnectionConfig)
    (env : ConnectEnv) :
    Except String String × ConnectionManager × List RegistryEvent :=
  match (if config.use_ssh_tunnel then some (establish config env.establishEnv).1 else none) with
  | some (.error _) => (.error "ssh", m, [])
  | some (.ok tunnel) =>
      let m1 := { m with ssh_tunnels := insertAL m.ssh_tunnels config.id tunnel }
      if env.pgOk then
        (.ok config.id,
          { m1 with connections := insertAL m1.connections config.id () }, [])
      else
        match lookupAL m1.ssh_tunnels config.id with
        | some t =>
            (.error "pg",
              { m1 with ssh_tunnels := removeAL m1.ssh_tunnels config.id },
              [.tunnelShutdown t.local_port])
        | none => (.error "pg", m1, [])
  | none =>
      if env.pgOk then
        (.ok config.id,
          { m with connections := insertAL m.connections config.id () }, [])
      else (.error "pg", m, [])

/-- Bytes carried by a read outcome, when it produced data. -/
def dataOf : ReadOutcome → Option (List Nat)
  | .data bs => some bs
  | _ => none

/-- Read outcomes that do not break the copy loop on their own. -/
def isDataOrWouldBlock : ReadOutcome → Bool
  | .data _ => true
  | .wouldBlock => true
  | .eof => false
  | .err => false

/-- Copy-loop iteration in which no termination condition fires: both
reads return data or WouldBlock, both writes succeed, and channel.eof()
is false. -/
def cleanIter (it : CopyIter) : Bool :=
  isDataOrWouldBlock it.localRead && it.chanWriteOk &&
    isDataOrWouldBlock it.chanRead && it.localWriteOk && !it.chanEofFlag

/-- C10: when the formatted jump-host address does not parse as a literal
IP socket address, establish fails with the address error and its effect
trace is empty — in particular no transport connect, handshake or any
other network I/O is attempted.  The parse mirrors
str::parse::<SocketAddr>, which never performs DNS resolution. -/
theorem establish_parse_fail_no_network (config : ConnectionConfig)
    (env : EstablishEnv) (h : env.parseOk = false) :
    (establish config env).1 = .error .addrParse ∧
    (establish config env).2 = [] := by
  simp [establish, h]

/-- Witness for establish_parse_fail_no_network at a concrete config whose
ssh_host is a DNS hostname rather than an IP literal. -/
theorem establish_parse_fail_no_network_witness :
    ({ parseOk := false, connectOk := true, sessionNewOk := true,
       handshakeOk := true, authOk := true, authenticated := true,
       bindOk := true, localAddrOk := true, localPort := 5432,
       setNonblockingOk := true : EstablishEnv }.parseOk = false) ∧
    ((establish
        { id := "c1", host := "db.internal", port := 5432,
          use_ssh_tunnel := true, ssh_host := "jump.example", ssh_port := 22,
          ssh_username := "u", ssh_auth_method := "password",
          ssh_password := "pw", ssh_key_path := "", ssh_passphrase := "" }
        { parseOk := false, connectOk := true, sessionNewOk := true,
          handshakeOk := true, authOk := true, authenticated := true,
          bindOk := true, localAddrOk := true, localPort := 5432,
          setNonblockingOk := true }).1 = .error .addrParse ∧
      (establish
        { id := "c1", host := "db.internal", port := 5432,
          use_ssh_tunnel := true, ssh_host := "jump.example", ssh_port := 22,
          ssh_username := "u", ssh_auth_method := "password",
          ssh_password := "pw", ssh_key_path := "", ssh_passphrase := "" }
        { parseOk := false, connectOk := true, sessionNewOk := true,
          handshakeOk := true, authOk := true, authenticated := true,
          bindOk := true, localAddrOk := true, localPort := 5432,
          setNonblockingOk := true }).2 = []) :=
  ⟨rfl, establish_parse_fail_no_network _ _ rfl⟩

/-- Counterexample to C2 as stated: with the unrecognized method string
"agent" and a world in which parse, connect and handshake succeed,
establish does fail with the unknown-auth-method error, but its effect
trace contains the transport connect and the handshake — network I/O has
already occurred when the configuration error is reported. -/
theorem establish_unknown_method_counterexample :
    (establish
        { id := "c1", host := "db.internal", port := 5432,
          use_ssh_tunnel := true, ssh_host := "10.0.0.1", ssh_port := 22,
          ssh_username := "u", ssh_auth_method := "agent",
          ssh_password := "pw", ssh_key_path := "", ssh_passphrase := "" }
        { parseOk := true, connectOk := true, sessionNewOk := true,
          handshakeOk := true, authOk := true, authenticated := true,
          bindOk := true, localAddrOk := true, localPort := 5432,
          setNonblockingOk := true }).1 = .error (.unknownAuthMethod "agent") ∧
    Effect.connect ∈
      (establish
        { id := "c1", host := "db.internal", port := 5432,
          use_ssh_tunnel := true, ssh_host := "10.0.0.1", ssh_port := 22,
          ssh_username := "u", ssh_auth_method := "agent",
          ssh_password := "pw", ssh_key_path := "", ssh_passphrase := "" }
        { parseOk := true, connectOk := true, sessionNewOk := true,
          handshakeOk := true, authOk := true, authenticated := true,
          bindOk := true, localAddrOk := true, localPort := 5432,
          setNonblockingOk := true }).2 ∧
    Effect.handshake ∈
      (establish
        { id := "c1", host := "db.internal", port := 5432,
          use_ssh_tunnel := true, ssh_host := "10.0.0.1", ssh_port := 22,
          ssh_username := "u", ssh_auth_method := "agent",
          ssh_password := "pw", ssh_key_path := "", ssh_passphrase := "" }
        { parseOk := true, connectOk := true, sessionNewOk := true,
          handshakeOk := true, authOk := true, authenticated := true,
          bindOk := true, localAddrOk := true, localPort := 5432,
          setNonblockingOk := true }).2 := by
  refine ⟨?_, ?_, ?_⟩ <;> simp [establish]

/-- C2 amended: for every config whose auth-method string is none of the
three recognized variants, once the transport connect, session creation
and handshake have succeeded, establish fails with the unknown-auth-method
configuration error; the error is reported after the transport connect and
handshake but before any authentication attempt, listener bind or worker
spawn — the trace is exactly the connect and the handshake. -/
theorem establish_unknown_method_is_config_error (config : ConnectionConfig)
    (env : EstablishEnv)
    (hm1 : config.ssh_auth_method ≠ "password")
    (hm2 : config.ssh_auth_method ≠ "key")
    (hm3 : config.ssh_auth_method ≠ "key_passphrase")
    (hp : env.parseOk = true) (hc : env.connectOk = true)
    (hs : env.sessionNewOk = true) (hh : env.handshakeOk = true) :
    (establish config env).1 =
      .error (.unknownAuthMethod config.ssh_auth_method) ∧
    (establish config env).2 = [Effect.connect, Effect.handshake] := by
  unfold establish
  simp [hp, hc, hs, hh]

/-- Witness for establish_unknown_method_is_config_error with the method
string "agent". -/
theorem establish_unknown_method_is_config_error_witness :
    (establish
        { id := "c1", host := "db.internal", port := 5432,
          use_ssh_tunnel := true, ssh_host := "10.0.0.1", ssh_port := 22,
          ssh_username := "u", ssh_auth_method := "agent",
          ssh_password := "pw", ssh_key_path := "", ssh_passphrase := "" }
        { parseOk := true, connectOk := true, sessionNewOk := true,
          handshakeOk := true, authOk := true, authenticated := true,
          bindOk := true, localAddrOk := true, localPort := 5432,
          setNonblockingOk := true }).1 = .error (.unknownAuthMethod "agent") ∧
    (establish
        { id := "c1", host := "db.internal", port := 5432,
          use_ssh_tunnel := true, ssh_host := "10.0.0.1", ssh_port := 22,
          ssh_username := "u", ssh_auth_method := "agent",
          ssh_password := "pw", ssh_key_path := "", ssh_passphrase := "" }
        { parseOk := true, connectOk := true, sessionNewOk := true,
          handshakeOk := true, authOk := true, authenticated := true,
          bindOk := true, localAddrOk := true, localPort := 5432,
          setNonblockingOk := true }).2 = [Effect.connect, Effect.handshake] :=
  establish_unknown_method_is_config_error _ _
    (by decide) (by decide) (by decide) rfl rfl rfl rfl

/-- C3: on every successful establish, the effect trace is exactly the
transport connect, the handshake, the authentication attempt, the
loopback listener bind, the switch of the listener to non-blocking mode
and the spawn of the worker thread — in that order, all before the port
value is handed back — and the returned tunnel carries the port the
listener reported.  There is no success path on which the port is
returned with the listener unbound or the worker not yet spawned. -/
theorem establish_success_listener_and_worker_ready (config : ConnectionConfig)
    (env : EstablishEnv) (t : SshTunnel)
    (h : (establish config env).1 = .ok t) :
    (establish config env).2 =
      [Effect.connect, Effect.handshake,
        Effect.authAttempt config.ssh_auth_method,
        Effect.bind, Effect.setNonblocking, Effect.spawnWorker] ∧
    t.local_port = env.localPort := by
  obtain ⟨p, c, sn, hsh, ao, au, bo, lao, lp, sno⟩ := env
  cases p
  · simp [establish] at h
  cases c
  · simp [establish] at h
  cases sn
  · simp [establish] at h
  cases hsh
  · simp [establish] at h
  by_cases hm1 : config.ssh_auth_method = "password"
  · cases ao
    · simp [establish, hm1] at h
    cases au
    · simp [establish, establishTail, hm1] at h
    cases bo
    · simp [establish, establishTail, hm1] at h
    cases lao
    · simp [establish, establishTail, hm1] at h
    cases sno
    · simp [establish, establishTail, hm1] at h
    simp_all [establish, establishTail, hm1]
    cases h
    rfl
  by_cases hm2 : config.ssh_auth_method = "key"
  · cases ao
    · simp [establish, hm2] at h
    cases au
    · simp [establish, establishTail, hm2] at h
    cases bo
    · simp [establish, establishTail, hm2] at h
    cases lao
    · simp [establish, establishTail, hm2] at h
    cases sno
    · simp [establish, establishTail, hm2] at h
    simp_all [establish, establishTail, hm2]
    cases h
    rfl
  by_cases hm3 : config.ssh_auth_method = "key_passphrase"
  · cases ao
    · simp [establish, hm3] at h
    cases au
    · simp [establish, establishTail, hm3] at h
    cases bo
    · simp [establish, establishTail, hm3] at h
    cases lao
    · simp [establish, establishTail, hm3] at h
    cases sno
    · simp [establish, establishTail, hm3] at h
    simp_all [establish, establishTail, hm3]
    cases h
    rfl
  unfold establish at h
  simp at h

/-- Witness for establish_success_listener_and_worker_ready at a concrete
successful run with password authentication and port 54321. -/
theorem establish_success_listener_and_worker_ready_witness :
    ((establish
        { id := "c1", host := "db.internal", port := 5432,
          use_ssh_tunnel := true, ssh_host := "10.0.0.1", ssh_port := 22,
          ssh_username := "u", ssh_auth_method := "password",
          ssh_password := "pw", ssh_key_path := "", ssh_passphrase := "" }
        { parseOk := true, connectOk := true, sessionNewOk := true,
          handshakeOk := true, authOk := true, authenticated := true,
          bindOk := true, localAddrOk := true, localPort := 54321,
          setNonblockingOk := true }).1 = .ok { local_port := 54321 }) ∧
    ((establish
        { id := "c1", host := "db.internal", port := 5432,
          use_ssh_tunnel := true, ssh_host := "10.0.0.1", ssh_port := 22,
          ssh_username := "u", ssh_auth_method := "password",
          ssh_password := "pw", ssh_key_path := "", ssh_passphrase := "" }
        { parseOk := true, connectOk := true, sessionNewOk := true,
          handshakeOk := true, authOk := true, authenticated := true,
          bindOk := true, localAddrOk := true, localPort := 54321,
          setNonblockingOk := true }).2 =
      [Effect.connect, Effect.handshake, Effect.authAttempt "password",
        Effect.bind, Effect.setNonblocking, Effect.spawnWorker] ∧
      SshTunnel.local_port { local_port := 54321 } = 54321) :=
  ⟨rfl, establish_success_listener_and_worker_ready _ _ _ rfl⟩

/-- Counterexample to C7 as stated: when the worker-thread join fails, the
shutdown trace is just the signal send followed by the join — it contains
no report of the join failure, because the source discards the join
result with a wildcard binding.  The claim that a join failure is
reported is therefore false. -/
theorem shutdown_join_failure_silent_counterexample :
    (SshTunnel.shutdown { local_port := 5050 } false).2 =
      [ShutdownEvent.sendSignal, ShutdownEvent.joinWorker false] ∧
    ShutdownEvent.reportJoinError ∉
      (SshTunnel.shutdown { local_port := 5050 } false).2 := by
  decide

/-- C7 amended: shutdown sends the one-shot shutdown signal and only then
joins the worker thread, and it returns unit whatever the join outcome —
a failed join is silently ignored (not reported) and does not prevent the
caller from considering the tunnel terminated.  The source's
pub fn shutdown(mut self) takes the tunnel by value, so the Rust type
system already forbids calling it twice on the same tunnel. -/
theorem shutdown_signals_then_joins (t : SshTunnel) (joinOk : Bool) :
    (SshTunnel.shutdown t joinOk).1 = () ∧
    (SshTunnel.shutdown t joinOk).2 =
      [ShutdownEvent.sendSignal, ShutdownEvent.joinWorker joinOk] := by
  simp [SshTunnel.shutdown]

/-- C5: in any state of the accept loop, the worker loop terminates
(reaches Closed) exactly when the shutdown signal is present at the top
of the iteration or the accept returned a hard listener error; a failed
channel open or any outcome of a forwarding episode (captured inside
AcceptOutcome.conn) leaves the loop in Listening, and when the step stays
in Listening the loop goes on to process the subsequent iterations
exactly as it would from a fresh Listening state. -/
theorem forward_loop_episode_errors_nonfatal (b : Bool) (inp : IterInput)
    (rest : List IterInput) :
    ((forwardStep b inp).1 = Phase.closed ↔
      inp.signalPresent = true ∨ inp.accept = .hardErr) ∧
    ((forwardStep b inp).1 = Phase.listening →
      forwardRun b (inp :: rest) =
        ((forwardRun (forwardStep b inp).2.1 rest).1,
          (forwardRun (forwardStep b inp).2.1 rest).2.1,
          (forwardStep b inp).2.2 ++ (forwardRun (forwardStep b inp).2.1 rest).2.2)) := by
  constructor
  · rcases inp with ⟨s, a, co⟩
    cases s <;> cases a <;> cases co <;> simp [forwardStep]
  · intro hl
    rcases hfs : forwardStep b inp with ⟨ph, b2, evs⟩
    rw [hfs] at hl
    simp only at hl
    subst hl
    simp [forwardRun, hfs]

/-- Witness for forward_loop_episode_errors_nonfatal: a channel-open
failure leaves the loop listening and the next iteration still runs. -/
theorem forward_loop_episode_errors_nonfatal_witness :
    ((forwardStep false { signalPresent := false, accept := .conn [], chanOpenOk := false }).1 =
        Phase.closed ↔
      ({ signalPresent := false, accept := .conn [], chanOpenOk := false : IterInput }).signalPresent = true ∨
      ({ signalPresent := false, accept := .conn [], chanOpenOk := false : IterInput }).accept = .hardErr) ∧
    ((forwardStep false { signalPresent := false, accept := .conn [], chanOpenOk := false }).1 =
        Phase.listening →
      forwardRun false
          [{ signalPresent := false, accept := .conn [], chanOpenOk := false },
            { signalPresent := false, accept := .wouldBlock, chanOpenOk := true }] =
        ((forwardRun (forwardStep false { signalPresent := false, accept := .conn [], chanOpenOk := false }).2.1
              [{ signalPresent := false, accept := .wouldBlock, chanOpenOk := true }]).1,
          (forwardRun (forwardStep false { signalPresent := false, accept := .conn [], chanOpenOk := false }).2.1
              [{ signalPresent := false, accept := .wouldBlock, chanOpenOk := true }]).2.1,
          (forwardStep false { signalPresent := false, accept := .conn [], chanOpenOk := false }).2.2 ++
            (forwardRun (forwardStep false { signalPresent := false, accept := .conn [], chanOpenOk := false }).2.1
                [{ signalPresent := false, accept := .wouldBlock, chanOpenOk := true }]).2.2)) :=
  forward_loop_episode_errors_nonfatal false
    { signalPresent := false, accept := .conn [], chanOpenOk := false }
    [{ signalPresent := false, accept := .wouldBlock, chanOpenOk := true }]

/-- Helper for the blocking-mode invariant: starting from non-blocking
mode, every accept attempt the loop run performs records non-blocking
mode. -/
theorem forwardRun_accept_nonblocking : ∀ (inputs : List IterInput) (b : Bool),
    WEvent.acceptAttempt b ∈ (forwardRun false inputs).2.2 → b = false := by
  intro inputs
  induction inputs with
  | nil => intro b h; simp [forwardRun] at h
  | cons inp rest ih =>
    intro b h
    rcases inp with ⟨s, a, co⟩
    cases s
    · cases a with
      | conn script =>
        cases co
        · simp [forwardRun, forwardStep] at h
          rcases h with h | h
          · exact h
          · exact ih b h
        · simp [forwardRun, forwardStep] at h
          rcases h with h | h
          · exact h
          · exact ih b h
      | wouldBlock =>
        simp [forwardRun, forwardStep] at h
        rcases h with h | h
        · exact h
        · exact ih b h
      | hardErr =>
        simp [forwardRun, forwardStep] at h
        exact h
    · simp [forwardRun, forwardStep] at h

/-- C9: in every run of the forward loop, every accept attempt is
executed with the SSH session in non-blocking mode: the session is set
non-blocking before the loop, and after every forwarding episode
(whether or not the channel opened) the step restores non-blocking mode
before the loop re-enters Listening, so no accept ever observes blocking
mode. -/
theorem forward_loop_accept_always_nonblocking (inputs : List IterInput)
    (b : Bool) (h : WEvent.acceptAttempt b ∈ (forward_loop inputs).2.2) :
    b = false := by
  unfold forward_loop at h
  simp only [List.mem_cons] at h
  rcases h with h | h
  · cases h
  · exact forwardRun_accept_nonblocking inputs b h

/-- Witness for forward_loop_accept_always_nonblocking: a run with one
successful forwarding episode followed by an idle poll contains an accept
attempt, and it is in non-blocking mode. -/
theorem forward_loop_accept_always_nonblocking_witness :
    WEvent.acceptAttempt false ∈
      (forward_loop
          [{ signalPresent := false,
             accept := .conn [{ localRead := .eof, chanWriteOk := true,
                                chanRead := .wouldBlock, localWriteOk := true,
                                chanEofFlag := false }],
             chanOpenOk := true },
            { signalPresent := false, accept := .wouldBlock, chanOpenOk := true }]).2.2 ∧
    (false = false) :=
  ⟨by decide,
    forward_loop_accept_always_nonblocking
      [{ signalPresent := false,
         accept := .conn [{ localRead := .eof, chanWriteOk := true,
                            chanRead := .wouldBlock, localWriteOk := true,
                            chanEofFlag := false }],
         chanOpenOk := true },
        { signalPresent := false, accept := .wouldBlock, chanOpenOk := true }]
      false (by decide)⟩

/-- Helper: the events of a bidirectional-copy episode, embedded in the
worker trace, contain no shutdown-signal check. -/
theorem count_checkSignal_copy_events (l : List CopyEvent) :
    (l.map WEvent.copy).count WEvent.checkSignal = 0 := by
  induction l with
  | nil => simp
  | cons e t ih => simp [List.count_cons, ih]

/-- C4: in every iteration of the worker loop, the shutdown signal is
polled exactly once and as the very first action, at the Listening-state
boundary; when the signal is present the step exits to Closed after that
single check, with no accept attempt and no forwarding episode; and since
the single check is the head of the iteration trace, no signal check ever
occurs inside a forwarding episode — an in-progress bidirectional copy is
never interrupted by the shutdown request. -/
theorem shutdown_signal_only_at_listening_boundary (b : Bool) (inp : IterInput) :
    (inp.signalPresent = true →
      forwardStep b inp = (Phase.closed, b, [WEvent.checkSignal])) ∧
    ((forwardStep b inp).2.2).head? = some WEvent.checkSignal ∧
    ((forwardStep b inp).2.2).count WEvent.checkSignal = 1 := by
  rcases inp with ⟨s, a, co⟩
  cases s <;> cases a <;> cases co <;>
    simp [forwardStep, List.count_cons, List.count_append,
      count_checkSignal_copy_events]

/-- Witness for shutdown_signal_only_at_listening_boundary: with the
signal present the step closes immediately, and in a forwarding iteration
the only signal check is the head of the trace. -/
theorem shutdown_signal_only_at_listening_boundary_witness :
    (({ signalPresent := true, accept := .wouldBlock, chanOpenOk := true : IterInput }).signalPresent = true →
      forwardStep false { signalPresent := true, accept := .wouldBlock, chanOpenOk := true } =
        (Phase.closed, false, [WEvent.checkSignal])) ∧
    ((forwardStep false
        { signalPresent := false,
          accept := .conn [{ localRead := .eof, chanWriteOk := true,
                             chanRead := .wouldBlock, localWriteOk := true,
                             chanEofFlag := false }],
          chanOpenOk := true }).2.2).head? = some WEvent.checkSignal ∧
    ((forwardStep false
        { signalPresent := false,
          accept := .conn [{ localRead := .eof, chanWriteOk := true,
                             chanRead := .wouldBlock, localWriteOk := true,
                             chanEofFlag := false }],
          chanOpenOk := true }).2.2).count WEvent.checkSignal = 1 :=
  ⟨(shutdown_signal_only_at_listening_boundary false
      { signalPresent := true, accept := .wouldBlock, chanOpenOk := true }).1,
    (shutdown_signal_only_at_listening_boundary false
      { signalPresent := false,
        accept := .conn [{ localRead := .eof, chanWriteOk := true,
                           chanRead := .wouldBlock, localWriteOk := true,
                           chanEofFlag := false }],
        chanOpenOk := true }).2.1,
    (shutdown_signal_only_at_listening_boundary false
      { signalPresent := false,
        accept := .conn [{ localRead := .eof, chanWriteOk := true,
                           chanRead := .wouldBlock, localWriteOk := true,
                           chanEofFlag := false }],
        chanOpenOk := true }).2.2⟩

/-- C6: whenever the bidirectional copy terminates — by local EOF, local
hard read error, remote zero-length read, remote write failure, local
write failure, remote hard read error, or the channel reporting
end-of-file — its event trace ends with the clean remote-channel close
handshake: set the session blocking, send EOF on the channel, then wait
for its close, before control returns to the accept loop. -/
theorem copy_cleanup_handshake_on_every_exit (script : List CopyIter)
    (h : (bidirectional_copy script).exit.isSome = true) :
    ∃ pre, (bidirectional_copy script).events =
      pre ++ [CopyEvent.setBlocking true, CopyEvent.sendEof, CopyEvent.waitClose] := by
  refine ⟨CopyEvent.setBlocking false :: (copyLoop script).events, ?_⟩
  have hx : (bidirectional_copy script).exit = (copyLoop script).exit := rfl
  rw [hx] at h
  simp [bidirectional_copy, h]

/-- Witness for copy_cleanup_handshake_on_every_exit on an episode that
terminates with a remote write failure. -/
theorem copy_cleanup_handshake_on_every_exit_witness :
    (bidirectional_copy
        [{ localRead := .data [1, 2, 3], chanWriteOk := false,
           chanRead := .wouldBlock, localWriteOk := true,
           chanEofFlag := false }]).exit.isSome = true ∧
    ∃ pre, (bidirectional_copy
        [{ localRead := .data [1, 2, 3], chanWriteOk := false,
           chanRead := .wouldBlock, localWriteOk := true,
           chanEofFlag := false }]).events =
      pre ++ [CopyEvent.setBlocking true, CopyEvent.sendEof, CopyEvent.waitClose] :=
  ⟨by decide,
    copy_cleanup_handshake_on_every_exit
      [{ localRead := .data [1, 2, 3], chanWriteOk := false,
         chanRead := .wouldBlock, localWriteOk := true,
         chanEofFlag := false }] (by decide)⟩

/-- Helper for the byte-exact relay: over a clean run of the copy loop
(no termination condition fires before the final local EOF), the chunks
delivered to the channel are exactly the data chunks read from the local
socket, in order, and the chunks delivered to the local socket are
exactly the data chunks read from the channel, in order. -/
theorem copyLoop_clean_run (pre : List CopyIter) (last : CopyIter)
    (hclean : ∀ it ∈ pre, cleanIter it = true)
    (hlast : last.localRead = .eof) :
    (copyLoop (pre ++ [last])).chanWrites =
      pre.filterMap (fun it => dataOf it.localRead) ∧
    (copyLoop (pre ++ [last])).localWrites =
      pre.filterMap (fun it => dataOf it.chanRead) ∧
    (copyLoop (pre ++ [last])).exit = some .localEof := by
  induction pre with
  | nil =>
    rcases last with ⟨lr, cw, cr, lw, ce⟩
    simp only at hlast
    subst hlast
    simp [copyLoop]
  | cons it rest ih =>
    have hc := hclean it (List.mem_cons_self it rest)
    have hr : ∀ x ∈ rest, cleanIter x = true :=
      fun x hx => hclean x (List.mem_cons_of_mem it hx)
    obtain ⟨h1, h2, h3⟩ := ih hr
    rcases it with ⟨lr, cw, cr, lw, ce⟩
    simp only [cleanIter, Bool.and_eq_true, Bool.not_eq_true'] at hc
    obtain ⟨⟨⟨⟨hlr, hcw⟩, hcr⟩, hlw⟩, hce⟩ := hc
    subst hcw
    subst hlw
    subst hce
    cases lr with
    | data bs =>
      cases cr with
      | data cs => simp [copyLoop, h1, h2, h3, dataOf]
      | wouldBlock => simp [copyLoop, h1, h2, h3, dataOf]
      | eof => simp [isDataOrWouldBlock] at hcr
      | err => simp [isDataOrWouldBlock] at hcr
    | wouldBlock =>
      cases cr with
      | data cs => simp [copyLoop, h1, h2, h3, dataOf]
      | wouldBlock => simp [copyLoop, h1, h2, h3, dataOf]
      | eof => simp [isDataOrWouldBlock] at hcr
      | err => simp [isDataOrWouldBlock] at hcr
    | eof => simp [isDataOrWouldBlock] at hlr
    | err => simp [isDataOrWouldBlock] at hlr

/-- C1: byte-exact relay.  For every forwarding episode in which the
local client eventually closes (final local read returns EOF) and no
error or remote close fires earlier, the bidirectional copy delivers to
the remote channel exactly the data chunks read from the local socket,
unchanged and in the same order — arbitrary binary chunks, over any
number of loop passes, so sequences longer than the 8 KiB per-read buffer
are covered as successive chunks — and symmetrically delivers to the
local socket exactly the chunks read from the remote channel, unchanged
and in order.  Concatenating the chunk lists gives the byte sequences. -/
theorem relay_byte_exact (pre : List CopyIter) (last : CopyIter)
    (hclean : ∀ it ∈ pre, cleanIter it = true)
    (hlast : last.localRead = .eof) :
    (bidirectional_copy (pre ++ [last])).chanWrites =
      pre.filterMap (fun it => dataOf it.localRead) ∧
    (bidirectional_copy (pre ++ [last])).localWrites =
      pre.filterMap (fun it => dataOf it.chanRead) ∧
    (bidirectional_copy (pre ++ [last])).exit = some .localEof := by
  have h := copyLoop_clean_run pre last hclean hlast
  simpa [bidirectional_copy] using h

/-- Witness for relay_byte_exact on a concrete episode of three passes
carrying binary chunks in both directions before the local EOF. -/
theorem relay_byte_exact_witness :
    (∀ it ∈ [{ localRead := .data [0, 255, 7], chanWriteOk := true,
               chanRead := .wouldBlock, localWriteOk := true,
               chanEofFlag := false : CopyIter },
             { localRead := .wouldBlock, chanWriteOk := true,
               chanRead := .data [9, 9], localWriteOk := true,
               chanEofFlag := false : CopyIter },
             { localRead := .data [1], chanWriteOk := true,
               chanRead := .data [2], localWriteOk := true,
               chanEofFlag := false : CopyIter }], cleanIter it = true) ∧
    ({ localRead := .eof, chanWriteOk := true, chanRead := .wouldBlock,
       localWriteOk := true, chanEofFlag := false : CopyIter }).localRead = .eof ∧
    (bidirectional_copy
        ([{ localRead := .data [0, 255, 7], chanWriteOk := true,
            chanRead := .wouldBlock, localWriteOk := true,
            chanEofFlag := false },
          { localRead := .wouldBlock, chanWriteOk := true,
            chanRead := .data [9, 9], localWriteOk := true,
            chanEofFlag := false },
          { localRead := .data [1], chanWriteOk := true,
            chanRead := .data [2], localWriteOk := true,
            chanEofFlag := false }] ++
          [{ localRead := .eof, chanWriteOk := true, chanRead := .wouldBlock,
             localWriteOk := true, chanEofFlag := false }])).chanWrites =
      [[0, 255, 7], [1]] ∧
    (bidirectional_copy
        ([{ localRead := .data [0, 255, 7], chanWriteOk := true,
            chanRead := .wouldBlock, localWriteOk := true,
            chanEofFlag := false },
          { localRead := .wouldBlock, chanWriteOk := true,
            chanRead := .data [9, 9], localWriteOk := true,
            chanEofFlag := false },
          { localRead := .data [1], chanWriteOk := true,
            chanRead := .data [2], localWriteOk := true,
            chanEofFlag := false }] ++
          [{ localRead := .eof, chanWriteOk := true, chanRead := .wouldBlock,
             localWriteOk := true, chanEofFlag := false }])).localWrites =
      [[9, 9], [2]] := by
  have h := relay_byte_exact
    [⟨.data [0, 255, 7], true, .wouldBlock, true, false⟩,
      ⟨.wouldBlock, true, .data [9, 9], true, false⟩,
      ⟨.data [1], true, .data [2], true, false⟩]
    ⟨.eof, true, .wouldBlock, true, false⟩ (by decide) rfl
  refine ⟨by decide, rfl, ?_, ?_⟩
  · rw [h.1]
    decide
  · rw [h.2.1]
    decide

/-- Helper: looking up a key after removing it from an association list
yields nothing. -/
theorem lookupAL_removeAL {α : Type} (l : List (String × α)) (k : String) :
    lookupAL (removeAL l k) k = none := by
  unfold lookupAL removeAL
  rw [Option.map_eq_none', List.find?_eq_none]
  intro x hx
  have hmem := List.of_mem_filter hx
  simp only [Bool.not_eq_true'] at hmem
  simp [hmem]

/-- Helper: looking up a key directly after inserting it yields the
inserted value. -/
theorem lookupAL_insertAL {α : Type} (l : List (String × α)) (k : String) (v : α) :
    lookupAL (insertAL l k v) k = some v := by
  simp [lookupAL, insertAL, List.find?_cons]

/-- C8: registry semantics of the connection manager.  Disconnecting an
identifier with no registered tunnel succeeds and is a no-op on the
tunnel registry; disconnecting an identifier with a registered tunnel
succeeds, shuts that tunnel down, removes the entry, and afterwards the
port lookup returns nothing; and a failed downstream database connection
through a freshly registered tunnel likewise removes the entry and shuts
the tunnel down, leaving the port lookup empty. -/
theorem registry_removes_and_shuts_down (m : ConnectionManager) (cid : String)
    (config : ConnectionConfig) (cenv : ConnectEnv) (t tn : SshTunnel) :
    (lookupAL m.ssh_tunnels cid = none →
      (m.disconnect cid).1 = .ok () ∧
      (m.disconnect cid).2.2 = [] ∧
      (m.disconnect cid).2.1.ssh_tunnels = m.ssh_tunnels) ∧
    (lookupAL m.ssh_tunnels cid = some t →
      (m.disconnect cid).1 = .ok () ∧
      (m.disconnect cid).2.2 = [.tunnelShutdown t.local_port] ∧
      (m.disconnect cid).2.1.get_tunnel_port cid = none) ∧
    (config.use_ssh_tunnel = true →
      (establish config cenv.establishEnv).1 = .ok tn →
      cenv.pgOk = false →
      (m.connect config cenv).1 = .error "pg" ∧
      (m.connect config cenv).2.2 = [.tunnelShutdown tn.local_port] ∧
      (m.connect config cenv).2.1.get_tunnel_port config.id = none) := by
  refine ⟨?_, ?_, ?_⟩
  · intro h
    simp [ConnectionManager.disconnect, h]
  · intro h
    simp [ConnectionManager.disconnect, h, ConnectionManager.get_tunnel_port,
      lookupAL_removeAL]
  · intro hu he hp
    simp [ConnectionManager.connect, hu, he, hp, lookupAL_insertAL,
      ConnectionManager.get_tunnel_port, lookupAL_removeAL]

/-- Witness for registry_removes_and_shuts_down, instantiated on a
manager holding one tunnel: a disconnect of an unregistered id is a
successful no-op, a disconnect of the registered id shuts the tunnel
down and empties its port lookup, and a failed database connection after
a fresh tunnel registration does the same. -/
theorem registry_removes_and_shuts_down_witness :
    (({ connections := [], ssh_tunnels := [("a", { local_port := 4000 })] :
        ConnectionManager }.disconnect "b").1 = .ok () ∧
      ({ connections := [], ssh_tunnels := [("a", { local_port := 4000 })] :
        ConnectionManager }.disconnect "b").2.2 = [] ∧
      ({ connections := [], ssh_tunnels := [("a", { local_port := 4000 })] :
        ConnectionManager }.disconnect "b").2.1.ssh_tunnels =
        [("a", { local_port := 4000 })]) ∧
    (({ connections := [], ssh_tunnels := [("a", { local_port := 4000 })] :
        ConnectionManager }.disconnect "a").2.2 =
        [.tunnelShutdown 4000] ∧
      ({ connections := [], ssh_tunnels := [("a", { local_port := 4000 })] :
        ConnectionManager }.disconnect "a").2.1.get_tunnel_port "a" = none) ∧
    ((ConnectionManager.connect
        { connections := [], ssh_tunnels := [("a", { local_port := 4000 })] }
        { id := "c", host := "db.internal", port := 5432,
          use_ssh_tunnel := true, ssh_host := "10.0.0.1", ssh_port := 22,
          ssh_username := "u", ssh_auth_method := "password",
          ssh_password := "pw", ssh_key_path := "", ssh_passphrase := "" }
        { establishEnv :=
            { parseOk := true, connectOk := true, sessionNewOk := true,
              handshakeOk := true, authOk := true, authenticated := true,
              bindOk := true, localAddrOk := true, localPort := 54321,
              setNonblockingOk := true },
          pgOk := false }).1 = .error "pg" ∧
      (ConnectionManager.connect
        { connections := [], ssh_tunnels := [("a", { local_port := 4000 })] }
        { id := "c", host := "db.internal", port := 5432,
          use_ssh_tunnel := true, ssh_host := "10.0.0.1", ssh_port := 22,
          ssh_username := "u", ssh_auth_method := "password",
          ssh_password := "pw", ssh_key_path := "", ssh_passphrase := "" }
        { establishEnv :=
            { parseOk := true, connectOk := true, sessionNewOk := true,
              handshakeOk := true, authOk := true, authenticated := true,
              bindOk := true, localAddrOk := true, localPort := 54321,
              setNonblockingOk := true },
          pgOk := false }).2.2 = [.tunnelShutdown 54321] ∧
      (ConnectionManager.connect
        { connections := [], ssh_tunnels := [("a", { local_port := 4000 })] }
        { id := "c", host := "db.internal", port := 5432,
          use_ssh_tunnel := true, ssh_host := "10.0.0.1", ssh_port := 22,
          ssh_username := "u", ssh_auth_method := "password",
          ssh_password := "pw", ssh_key_path := "", ssh_passphrase := "" }
        { establishEnv :=
            { parseOk := true, connectOk := true, sessionNewOk := true,
              handshakeOk := true, authOk := true, authenticated := true,
              bindOk := true, localAddrOk := true, localPort := 54321,
              setNonblockingOk := true },
          pgOk := false }).2.1.get_tunnel_port "c" = none) := by
  have hA := registry_removes_and_shuts_down
    { connections := [], ssh_tunnels := [("a", { local_port := 4000 })] } "b"
    { id := "c", host := "db.internal", port := 5432,
      use_ssh_tunnel := true, ssh_host := "10.0.0.1", ssh_port := 22,
      ssh_username := "u", ssh_auth_method := "password",
      ssh_password := "pw", ssh_key_path := "", ssh_passphrase := "" }
    { establishEnv :=
        { parseOk := true, connectOk := true, sessionNewOk := true,
          handshakeOk := true, authOk := true, authenticated := true,
          bindOk := true, localAddrOk := true, localPort := 54321,
          setNonblockingOk := true },
      pgOk := false }
    { local_port := 4000 } { local_port := 54321 }
  have hB := registry_removes_and_shuts_down
    { connections := [], ssh_tunnels := [("a", { local_port := 4000 })] } "a"
    { id := "c", host := "db.internal", port := 5432,
      use_ssh_tunnel := true, ssh_host := "10.0.0.1", ssh_port := 22,
      ssh_username := "u", ssh_auth_method := "password",
      ssh_password := "pw", ssh_key_path := "", ssh_passphrase := "" }
    { establishEnv :=
        { parseOk := true, connectOk := true, sessionNewOk := true,
          handshakeOk := true, authOk := true, authenticated := true,
          bindOk := true, localAddrOk := true, localPort := 54321,
          setNonblockingOk := true },
      pgOk := false }
    { local_port := 4000 } { local_port := 54321 }
  refine ⟨hA.1 (by decide), ?_, ?_⟩
  · have h2 := hB.2.1 (by decide)
    exact ⟨h2.2.1, h2.2.2⟩
  · exact hA.2.2 rfl rfl rfl
